import Mathlib

/-!
Verification of the workflow-memory core of `pipeline-backend`
(`pkg/memory/memory.go` and the `data` package's `Map.ToStructValue`),
as a shallow embedding.  Go slices become `List`, Go maps become
association lists with unique keys, Go `int` indices become `Int`,
Go interface values (`data.Value`) become the inductive `Value` with
`Option Value` standing for a possibly-nil interface variable, and a
runtime panic (slice index out of range, failed type assertion, nil
dereference) becomes the `GoRes.panic` outcome.  Redis publish results
are injected through an explicit `pubFails` flag; the events handed to
`redisClient.Publish` during a call are collected in order.
-/

namespace PipelineMemory

/-- The dynamic value model of the `data` package: a recursive tagged
union (`Null`, `Boolean`, `Number`, `String`, `Array`, `Map`).  A Go
`map[string]Value` is represented as an association list whose keys are
unique (Go maps cannot hold duplicate keys). -/
inductive Value where
  | null : Value
  | boolean : Bool → Value
  | number : Int → Value
  | str : String → Value
  | array : List Value → Value
  | map : List (String × Value) → Value

/-- Association-list lookup, the image of a Go map read `m[k]`:
`none` is Go's zero value (a nil `data.Value`) for an absent key. -/
def mapLookup : List (String × Value) → String → Option Value
  | [], _ => none
  | (k, v) :: rest, key => if k = key then some v else mapLookup rest key

/-- Association-list update, the image of a Go map write `m[k] = v`:
replaces the binding when the key is present, appends it otherwise. -/
def mapInsert : List (String × Value) → String → Value → List (String × Value)
  | [], key, value => [(key, value)]
  | (k, v) :: rest, key, value =>
    if k = key then (key, value) :: rest else (k, v) :: mapInsert rest key value

/-- Go slice read `l[i]` with an `int` index, as a partial lookup:
`none` exactly when the read would panic (negative or too large). -/
def listGetI (l : List α) (i : Int) : Option α :=
  if 0 ≤ i then l.get? i.toNat else none

/-- Go slice write `l[i] = a` (only ever used at indices that were
successfully read, where it cannot panic). -/
def listSetI (l : List α) (i : Int) (a : α) : List α :=
  if 0 ≤ i then l.set i.toNat a else l

/-- Outcome of running a Go function: either a normal return or a
runtime panic. -/
inductive GoRes (α : Type) where
  | panic : GoRes α
  | ret : α → GoRes α

/-- The `error` values the memory core can return to its caller. -/
inductive GoError where
  | componentNotExist : String → GoError
  | fieldNotExist : String → GoError
  | jsonUnmarshalError : GoError
  | publishError : GoError

/-- The structural (JSON-shaped) envelope, `structpb.Value`. -/
inductive StructValue where
  | nullValue : StructValue
  | boolValue : Bool → StructValue
  | numberValue : Int → StructValue
  | stringValue : String → StructValue
  | listValue : List StructValue → StructValue
  | structValue : List (String × StructValue) → StructValue

mutual

/-- Structural projection `Value.ToStructValue`.  The `Map` case is the
`data` package's `Map.ToStructValue` (src/unnamed/part_000, lines
343-358): keys whose value is the `Null` variant are omitted.
Modelled from the spec: the scalar and `Array` cases
(`Null.ToStructValue`, `Array.ToStructValue`, ...) are not under src/;
per §4.1 `Null` becomes a null literal, scalars their scalar form, and
`Array` an ordered list of the projections of its elements. -/
def toStructValue : Value → StructValue
  | Value.null => StructValue.nullValue
  | Value.boolean b => StructValue.boolValue b
  | Value.number n => StructValue.numberValue n
  | Value.str s => StructValue.stringValue s
  | Value.array vs => StructValue.listValue (arrayToStruct vs)
  | Value.map fs => StructValue.structValue (mapToStruct fs)

/-- Element-wise projection of an `Array`'s values (modelled from the
spec, see `toStructValue`): `Null` elements stay in place as null
literals. -/
def arrayToStruct : List Value → List StructValue
  | [] => []
  | v :: rest => toStructValue v :: arrayToStruct rest

/-- Field-wise projection of a `Map`'s fields, from
`Map.ToStructValue` (src/unnamed/part_000 lines 343-358): a field
holding the `Null` variant is skipped, every other field is projected
recursively. -/
def mapToStruct : List (String × Value) → List (String × StructValue)
  | [] => []
  | (k, v) :: rest =>
    match v with
    | Value.null => mapToStruct rest
    | Value.boolean b => (k, StructValue.boolValue b) :: mapToStruct rest
    | Value.number n => (k, StructValue.numberValue n) :: mapToStruct rest
    | Value.str s => (k, StructValue.stringValue s) :: mapToStruct rest
    | Value.array vs => (k, StructValue.listValue (arrayToStruct vs)) :: mapToStruct rest
    | Value.map fs => (k, StructValue.structValue (mapToStruct fs)) :: mapToStruct rest

end

/-- The `json.Unmarshal(b, &data)` step of event construction, where
`b` is the `protojson` serialisation of the projected value and `data`
is a `map[string]any`: an object yields its fields, a JSON `null`
unmarshals to a nil map (`some none`), and every other JSON shape
(array, scalar) makes `Unmarshal` return an error (`none`). -/
def structToJSONMap : StructValue → Option (Option (List (String × StructValue)))
  | StructValue.structValue fs => some (some fs)
  | StructValue.nullValue => some none
  | _ => none

/-- The typed tags of pipeline-scoped data (`PipelineDataType`). -/
inductive PipelineDataType where
  | variable : PipelineDataType
  | secret : PipelineDataType
  | output : PipelineDataType
  | outputTemplate : PipelineDataType
deriving DecidableEq

/-- The Go string behind each `PipelineDataType` constant. -/
def PipelineDataType.str : PipelineDataType → String
  | PipelineDataType.variable => "variable"
  | PipelineDataType.secret => "secret"
  | PipelineDataType.output => "output"
  | PipelineDataType.outputTemplate => "_output"

/-- The typed tags of per-component data (`ComponentDataType`). -/
inductive ComponentDataType where
  | input : ComponentDataType
  | output : ComponentDataType
  | element : ComponentDataType
  | setup : ComponentDataType
deriving DecidableEq

/-- The Go string behind each `ComponentDataType` constant. -/
def ComponentDataType.str : ComponentDataType → String
  | ComponentDataType.input => "input"
  | ComponentDataType.output => "output"
  | ComponentDataType.element => "element"
  | ComponentDataType.setup => "setup"

/-- The typed tags of component status flags (`ComponentStatusType`). -/
inductive ComponentStatusType where
  | started : ComponentStatusType
  | skipped : ComponentStatusType
  | completed : ComponentStatusType
deriving DecidableEq

/-- The Go string behind each `ComponentStatusType` constant. -/
def ComponentStatusType.str : ComponentStatusType → String
  | ComponentStatusType.started => "started"
  | ComponentStatusType.skipped => "skipped"
  | ComponentStatusType.completed => "completed"

/-- The `{started, skipped, completed}` triple carried by a
`component_status_updated` event (`map[ComponentStatusType]bool` with
exactly these three keys in the source). -/
structure StatusTriple where
  started : Bool
  skipped : Bool
  completed : Bool

/-- Payloads of the events the memory core publishes.  `empty` is the
zero `Event{}` (nil `Data`) that the source encodes and publishes when
the data type being written has no dedicated event.  `updateTime`
(`time.Now()`) is real time and is not modelled. -/
inductive EventData where
  | empty : EventData
  | componentStatus : String → Int → StatusTriple → EventData
  | componentInput : String → Int → Option (List (String × StructValue)) → EventData
  | componentOutput : String → Int → Option (List (String × StructValue)) → EventData
  | pipelineOutput : Int → Option (List (String × StructValue)) → EventData

/-- An event as handed to `redisClient.Publish`: the `event` tag string
and the payload. -/
structure Event where
  event : String
  data : EventData

/-- The recipe descriptor (`datamodel.Recipe`), opaque to the memory
core: it is only stored and returned. -/
structure datamodel.Recipe where

/-- The per-workflow memory object (`workflowMemory`).  The mutex and
the redis client handle are not part of the observable state; the
`streaming` flag and the exported `ID`, `Data`, `Recipe` fields are. -/
structure WorkflowMemory where
  ID : String
  Data : List Value
  Recipe : datamodel.Recipe
  streaming : Bool

/-- `memoryStore.NewWorkflowMemory`: builds the per-batch vector of
root maps `{"variable": {}, "secret": {}, "output": {}}` and the
workflow object (streaming off). -/
def NewWorkflowMemory (workflowID : String) (r : datamodel.Recipe) (batchSize : Nat) :
    WorkflowMemory :=
  { ID := workflowID
    Data := List.replicate batchSize (Value.map
      [("variable", Value.map []), ("secret", Value.map []), ("output", Value.map [])])
    Recipe := r
    streaming := false }

/-- `workflowMemory.EnableStreaming`. -/
def WorkflowMemory.EnableStreaming (w : WorkflowMemory) : WorkflowMemory :=
  { w with streaming := true }

/-- `workflowMemory.GetBatchSize`: `len(wfm.Data)`. -/
def WorkflowMemory.GetBatchSize (w : WorkflowMemory) : Nat :=
  w.Data.length

/-- `wfm.Data[batchIdx]`: panics (i.e. `none`) outside `0 ≤ i < len`. -/
def getRoot (w : WorkflowMemory) (batchIdx : Int) : Option Value :=
  listGetI w.Data batchIdx

/-- Replace the root map at `batchIdx` (the image of mutating the root
`*data.Map` in place through the slice element). -/
def setRootFields (w : WorkflowMemory) (batchIdx : Int) (f : List (String × Value)) :
    WorkflowMemory :=
  { w with Data := listSetI w.Data batchIdx (Value.map f) }

/-- Result of a mutating operation: the state after the call, the
events published on the bus during the call (in order), and the
returned `error`. -/
structure SetResult where
  state : WorkflowMemory
  published : List Event
  err : Option GoError

/-- `workflowMemory.Set`: `wfm.Data[batchIdx].(*data.Map).Fields[key] = value`.
Panics when the index is out of range or the root is not a `Map`. -/
def WorkflowMemory.Set (w : WorkflowMemory) (batchIdx : Int) (key : String) (value : Value) :
    GoRes SetResult :=
  match getRoot w batchIdx with
  | none => GoRes.panic
  | some (Value.map rf) =>
    GoRes.ret ⟨setRootFields w batchIdx (mapInsert rf key value), [], none⟩
  | some _ => GoRes.panic

/-- `workflowMemory.InitComponent`: installs the component skeleton
`{"input": {}, "output": {}, "status": {started/skipped/completed: false}, "setup": {}}`
under `componentID`.  No error return in the source; out-of-range
index or non-`Map` root panics. -/
def WorkflowMemory.InitComponent (w : WorkflowMemory) (batchIdx : Int) (componentID : String) :
    GoRes WorkflowMemory :=
  match getRoot w batchIdx with
  | none => GoRes.panic
  | some (Value.map rf) =>
    GoRes.ret (setRootFields w batchIdx (mapInsert rf componentID (Value.map
      [("input", Value.map []), ("output", Value.map []),
       ("status", Value.map
         [("started", Value.boolean false), ("skipped", Value.boolean false),
          ("completed", Value.boolean false)]),
       ("setup", Value.map [])])))
  | some _ => GoRes.panic

/-- `workflowMemory.SetComponentData`: writes
`data[batchIdx][componentID][t] = value`; fails with
`component %s not exist` when the component is absent.  When streaming,
projects `value` through the JSON round-trip, builds a
`ComponentInputUpdated`/`ComponentOutputUpdated` event for `t = input`
or `t = output` (leaving the zero `Event{}` otherwise, and leaving the
payload's `BatchIndex` field at its zero value `0` — the source never
assigns it), and publishes it; `pubFails` injects the result of
`redisClient.Publish`. -/
def WorkflowMemory.SetComponentData (w : WorkflowMemory) (batchIdx : Int)
    (componentID : String) (t : ComponentDataType) (value : Value) (pubFails : Bool) :
    GoRes SetResult :=
  match getRoot w batchIdx with
  | none => GoRes.panic
  | some (Value.map rf) =>
    match mapLookup rf componentID with
    | none => GoRes.ret ⟨w, [], some (GoError.componentNotExist componentID)⟩
    | some (Value.map cf) =>
      let w' := setRootFields w batchIdx
        (mapInsert rf componentID (Value.map (mapInsert cf t.str value)))
      if w.streaming then
        match structToJSONMap (toStructValue value) with
        | none => GoRes.ret ⟨w', [], some GoError.jsonUnmarshalError⟩
        | some jm =>
          let ev : Event :=
            if t = ComponentDataType.input then
              ⟨"component_input_updated", EventData.componentInput componentID 0 jm⟩
            else if t = ComponentDataType.output then
              ⟨"component_output_updated", EventData.componentOutput componentID 0 jm⟩
            else ⟨"", EventData.empty⟩
          if pubFails then GoRes.ret ⟨w', [], some GoError.publishError⟩
          else GoRes.ret ⟨w', [ev], none⟩
      else GoRes.ret ⟨w', [], none⟩
    | some _ => GoRes.panic
  | some _ => GoRes.panic

/-- `workflowMemory.GetComponentData`: returns
`data[batchIdx][componentID][t]` (a possibly-nil value — absent slots
come back as Go `nil` with a nil error) or `component %s not exist`. -/
def WorkflowMemory.GetComponentData (w : WorkflowMemory) (batchIdx : Int)
    (componentID : String) (t : ComponentDataType) :
    GoRes (Option Value × Option GoError) :=
  match getRoot w batchIdx with
  | none => GoRes.panic
  | some (Value.map rf) =>
    match mapLookup rf componentID with
    | none => GoRes.ret (none, some (GoError.componentNotExist componentID))
    | some (Value.map cf) => GoRes.ret (mapLookup cf t.str, none)
    | some _ => GoRes.panic
  | some _ => GoRes.panic

/-- `workflowMemory.SetComponentStatus`: writes
`data[batchIdx][componentID].status[t] = value`; fails with
`component %s not exist` when the component is absent; panics when the
`status` slot is missing or not a `Map`.  When streaming, reads the
post-mutation triple back (panicking unless all three flags are
`Boolean`s) and publishes a `ComponentStatusUpdated` event carrying
`componentID`, `batchIdx` and the triple. -/
def WorkflowMemory.SetComponentStatus (w : WorkflowMemory) (batchIdx : Int)
    (componentID : String) (t : ComponentStatusType) (value : Bool) (pubFails : Bool) :
    GoRes SetResult :=
  match getRoot w batchIdx with
  | none => GoRes.panic
  | some (Value.map rf) =>
    match mapLookup rf componentID with
    | none => GoRes.ret ⟨w, [], some (GoError.componentNotExist componentID)⟩
    | some (Value.map cf) =>
      match mapLookup cf "status" with
      | some (Value.map sf) =>
        let sf' := mapInsert sf t.str (Value.boolean value)
        let w' := setRootFields w batchIdx
          (mapInsert rf componentID (Value.map (mapInsert cf "status" (Value.map sf'))))
        if w.streaming then
          match mapLookup sf' "started", mapLookup sf' "skipped",
              mapLookup sf' "completed" with
          | some (Value.boolean s), some (Value.boolean k), some (Value.boolean c) =>
            let ev : Event :=
              ⟨"component_status_updated",
               EventData.componentStatus componentID batchIdx ⟨s, k, c⟩⟩
            if pubFails then GoRes.ret ⟨w', [], some GoError.publishError⟩
            else GoRes.ret ⟨w', [ev], none⟩
          | _, _, _ => GoRes.panic
        else GoRes.ret ⟨w', [], none⟩
      | _ => GoRes.panic
    | some _ => GoRes.panic
  | some _ => GoRes.panic

/-- `workflowMemory.GetComponentStatus`: reads
`data[batchIdx][componentID].status[t]` as a `Boolean`; fails with
`component %s not exist` when the component is absent; panics when the
status slot or the flag is missing or of the wrong variant. -/
def WorkflowMemory.GetComponentStatus (w : WorkflowMemory) (batchIdx : Int)
    (componentID : String) (t : ComponentStatusType) :
    GoRes (Bool × Option GoError) :=
  match getRoot w batchIdx with
  | none => GoRes.panic
  | some (Value.map rf) =>
    match mapLookup rf componentID with
    | none => GoRes.ret (false, some (GoError.componentNotExist componentID))
    | some (Value.map cf) =>
      match mapLookup cf "status" with
      | some (Value.map sf) =>
        match mapLookup sf t.str with
        | some (Value.boolean b) => GoRes.ret (b, none)
        | _ => GoRes.panic
      | _ => GoRes.panic
    | some _ => GoRes.panic
  | some _ => GoRes.panic

/-- `workflowMemory.SetPipelineData`: writes `data[batchIdx][t] = value`
with no existence check.  When streaming, runs the JSON projection
round-trip (returning its error without publishing when `value` does
not project to a JSON object or null), builds a `PipelineOutputUpdated`
event only when `t = output` (the zero `Event{}` otherwise; the
payload's `BatchIndex` is never assigned and stays `0`), then always
publishes the event. -/
def WorkflowMemory.SetPipelineData (w : WorkflowMemory) (batchIdx : Int)
    (t : PipelineDataType) (value : Value) (pubFails : Bool) : GoRes SetResult :=
  match getRoot w batchIdx with
  | none => GoRes.panic
  | some (Value.map rf) =>
    let w' := setRootFields w batchIdx (mapInsert rf t.str value)
    if w.streaming then
      match structToJSONMap (toStructValue value) with
      | none => GoRes.ret ⟨w', [], some GoError.jsonUnmarshalError⟩
      | some jm =>
        let ev : Event :=
          if t = PipelineDataType.output then
            ⟨"pipeline_output_updated", EventData.pipelineOutput 0 jm⟩
          else ⟨"", EventData.empty⟩
        if pubFails then GoRes.ret ⟨w', [], some GoError.publishError⟩
        else GoRes.ret ⟨w', [ev], none⟩
    else GoRes.ret ⟨w', [], none⟩
  | some _ => GoRes.panic

/-- `workflowMemory.GetPipelineData`: returns `data[batchIdx][t]` or
the error `%s not exist` when the slot is absent. -/
def WorkflowMemory.GetPipelineData (w : WorkflowMemory) (batchIdx : Int)
    (t : PipelineDataType) : GoRes (Option Value × Option GoError) :=
  match getRoot w batchIdx with
  | none => GoRes.panic
  | some (Value.map rf) =>
    match mapLookup rf t.str with
    | none => GoRes.ret (none, some (GoError.fieldNotExist t.str))
    | some v => GoRes.ret (some v, none)
  | some _ => GoRes.panic

/-- The split predicate of `strings.FieldsFunc(path, ...)` in
`workflowMemory.Get`: a rune is a separator when it is `.` or `[`. -/
def isSepChar (c : Char) : Bool := c == '.' || c == '['

/-- Split a rune sequence at every separator, keeping empty segments
(the raw splitting underneath `strings.FieldsFunc`). -/
def splitChars : List Char → List (List Char)
  | [] => [[]]
  | c :: rest =>
    if isSepChar c then [] :: splitChars rest
    else
      match splitChars rest with
      | [] => [[c]]
      | s :: ss => (c :: s) :: ss

/-- `strings.FieldsFunc(path, ...)`: the non-empty segments between
separators. -/
def fieldsSplit (cs : List Char) : List (List Char) :=
  (splitChars cs).filter (fun s => !s.isEmpty)

/-- `strings.HasSuffix(split, "]")` on a rune sequence. -/
def endsWithRB (cs : List Char) : Bool := cs.getLast? == some ']'

/-- The `newPath` accumulation loop of `workflowMemory.Get`: a segment
ending in `]` is emitted as `[<segment>` (an array index step, the
closing bracket being part of the segment), any other segment as
`["<segment>"]` (a map key step). -/
def buildNewPath : List (List Char) → List Char
  | [] => []
  | s :: rest =>
    (if endsWithRB s then '[' :: s
     else '[' :: '"' :: (s ++ ['"', ']'])) ++ buildNewPath rest

/-- `strings.Split(s, "][")`: split around each non-overlapping
occurrence of `][`, leftmost first. -/
def splitOnRBLB : List Char → List (List Char)
  | [] => [[]]
  | ']' :: '[' :: rest => [] :: splitOnRBLB rest
  | c :: rest =>
    match splitOnRBLB rest with
    | [] => [[c]]
    | s :: ss => (c :: s) :: ss

/-- `if c.isDigit` helper for `strconv.Atoi`. -/
def digitVal (c : Char) : Option Nat :=
  if c.isDigit then some (c.toNat - 48) else none

/-- Digit-run accumulator for `strconv.Atoi`. -/
def parseDigitsAux : List Char → Nat → Option Nat
  | [], acc => some acc
  | c :: rest, acc =>
    match digitVal c with
    | some d => parseDigitsAux rest (acc * 10 + d)
    | none => none

/-- Parse a non-empty all-digit run. -/
def parseDigits : List Char → Option Nat
  | [] => none
  | cs => parseDigitsAux cs 0

/-- `strconv.Atoi`: an optional sign followed by at least one digit
(machine-width overflow is not modelled; the paths in scope use small
indices). -/
def goAtoi : List Char → Option Int
  | '+' :: rest => (parseDigits rest).map (fun n => (n : Int))
  | '-' :: rest => (parseDigits rest).map (fun n => -(n : Int))
  | cs => (parseDigits cs).map (fun n => (n : Int))

/-- The walking loop of `workflowMemory.Get`: for each `][`-separated
step, an integer step asserts the current value to `*data.Array` and
indexes it (panicking on a wrong variant, a nil value, or an
out-of-range index), any other step strips the surrounding quotes
(`s[1:len(s)-1]`, panicking when the step is shorter than two runes),
asserts the current value to `*data.Map` and reads the key — an absent
key leaves a Go `nil` that panics on the next step but is returned
as-is when it is the last. -/
def walkSteps : List (List Char) → Option Value → GoRes (Option Value)
  | [], ptr => GoRes.ret ptr
  | s :: rest, ptr =>
    match goAtoi s with
    | some i =>
      match ptr with
      | some (Value.array vs) =>
        match listGetI vs i with
        | some v => walkSteps rest (some v)
        | none => GoRes.panic
      | _ => GoRes.panic
    | none =>
      if s.length < 2 then GoRes.panic
      else
        match ptr with
        | some (Value.map f) =>
          walkSteps rest (mapLookup f (String.mk (s.drop 1).dropLast))
        | _ => GoRes.panic

/-- `workflowMemory.Get`: the empty path returns the whole batch root;
otherwise the path is re-bracketed (`a.b[1].c` becomes
`["a"]["b"][1]["c"]`), the outer brackets are stripped (panicking when
there is no segment at all), and the `][`-separated steps are walked
from the root.  A successful walk returns the addressed value (possibly
Go `nil`) with a nil error. -/
def WorkflowMemory.Get (w : WorkflowMemory) (batchIdx : Int) (path : String) :
    GoRes (Option Value × Option GoError) :=
  match getRoot w batchIdx with
  | none => GoRes.panic
  | some root =>
    if path = "" then GoRes.ret (some root, none)
    else
      match buildNewPath (fieldsSplit path.data) with
      | [] => GoRes.panic
      | newPath =>
        match walkSteps (splitOnRBLB (newPath.drop 1).dropLast) (some root) with
        | GoRes.panic => GoRes.panic
        | GoRes.ret ptr => GoRes.ret (ptr, none)

/-- Modelled from the spec: the binary (gob) snapshot written by
`memoryStore.WriteWorkflowMemoryToRedis`.  The gob registration of the
`data` package's concrete `Value` types is not under src/; per §4.1 the
codec is self-describing and every `Value` round-trips, so the snapshot
is modelled as the exported fields it carries — `Data` and `Recipe`
(`ID` is also encoded but `LoadWorkflowMemoryFromRedis` overwrites it
with the lookup key; the unexported mutex, redis handle and `streaming`
flag are not encoded by gob). -/
structure Snapshot where
  Data : List Value
  Recipe : datamodel.Recipe

/-- `memoryStore.WriteWorkflowMemoryToRedis`: gob-encodes the workflow
memory under `pipeline_trigger:{id}` (the store lookup and the redis
write are assumed to succeed; their failures are plain `error`
returns). -/
def WriteWorkflowMemoryToRedis (w : WorkflowMemory) : Snapshot :=
  ⟨w.Data, w.Recipe⟩

/-- `memoryStore.LoadWorkflowMemoryFromRedis`: decodes the blob,
installs a fresh mutex and redis handle, and sets `ID` from the lookup
key; the unexported `streaming` flag comes back at its zero value. -/
def LoadWorkflowMemoryFromRedis (workflowID : String) (s : Snapshot) : WorkflowMemory :=
  ⟨workflowID, s.Data, s.Recipe, false⟩

theorem get?_set_self (l : List α) (n : Nat) (a v : α) (h : l.get? n = some a) :
    (l.set n v).get? n = some v := by
  induction l generalizing n with
  | nil => simp [List.get?] at h
  | cons x xs ih =>
    cases n with
    | zero => rfl
    | succ m =>
      simp only [List.set, List.get?] at h ⊢
      exact ih m h

theorem listGetI_listSetI (l : List α) (i : Int) (a v : α) (h : listGetI l i = some a) :
    listGetI (listSetI l i v) i = some v := by
  unfold listGetI listSetI at *
  by_cases h0 : 0 ≤ i
  · rw [if_pos h0] at h ⊢
    rw [if_pos h0]
    exact get?_set_self l i.toNat a v h
  · rw [if_neg h0] at h
    exact absurd h (by simp)

theorem listGetI_eq_none (l : List α) (i : Int) (h : i < 0 ∨ (l.length : Int) ≤ i) :
    listGetI l i = none := by
  unfold listGetI
  by_cases h0 : 0 ≤ i
  · rw [if_pos h0]
    refine List.get?_eq_none.mpr ?_
    omega
  · rw [if_neg h0]

theorem get?_replicate (n m : Nat) (a : α) (h : m < n) :
    (List.replicate n a).get? m = some a := by
  induction n generalizing m with
  | zero => omega
  | succ k ih =>
    cases m with
    | zero => rfl
    | succ j =>
      simp only [List.replicate, List.get?]
      exact ih j (by omega)

theorem listGetI_replicate (n : Nat) (a : α) (i : Int) (h0 : 0 ≤ i) (hn : i < (n : Int)) :
    listGetI (List.replicate n a) i = some a := by
  unfold listGetI
  rw [if_pos h0]
  exact get?_replicate n i.toNat a (by omega)

theorem mapLookup_mapInsert_self (m : List (String × Value)) (k : String) (v : Value) :
    mapLookup (mapInsert m k v) k = some v := by
  induction m with
  | nil => simp [mapInsert, mapLookup]
  | cons p rest ih =>
    by_cases h : p.1 = k
    · simp [mapInsert, h, mapLookup]
    · simp [mapInsert, h, mapLookup, ih]

theorem mapLookup_mapInsert_ne (m : List (String × Value)) (k k' : String) (v : Value)
    (h : k' ≠ k) : mapLookup (mapInsert m k v) k' = mapLookup m k' := by
  induction m with
  | nil =>
    have hne : ¬k = k' := fun hk => h hk.symm
    simp [mapInsert, mapLookup, hne]
  | cons p rest ih =>
    by_cases hp : p.1 = k
    · subst hp
      simp only [mapInsert, if_pos rfl, mapLookup]
      rw [if_neg (fun hk => h hk.symm), if_neg (fun hk => h hk.symm)]
    · simp only [mapInsert, if_neg hp, mapLookup]
      by_cases hk : p.1 = k'
      · rw [if_pos hk, if_pos hk]
      · rw [if_neg hk, if_neg hk]
        exact ih

/-- C1 (amended): none of the `WorkflowMemory` operations taking a
batch index checks that index; for `i` outside `0 ≤ i < batchSize`
every one of `Set`, `Get`, `InitComponent`, `SetComponentData`,
`GetComponentData`, `SetComponentStatus`, `GetComponentStatus`,
`SetPipelineData` and `GetPipelineData` panics (slice index out of
range on `wfm.Data[batchIdx]`) instead of failing with a
`BatchOutOfRange` error — no such error exists in the code. -/
theorem batchIndex_out_of_range_panics (w : WorkflowMemory) (i : Int)
    (key path componentID : String) (v : Value) (b pubFails : Bool)
    (cdt : ComponentDataType) (cst : ComponentStatusType) (pdt : PipelineDataType)
    (h : i < 0 ∨ (w.Data.length : Int) ≤ i) :
    w.Set i key v = GoRes.panic ∧
    w.Get i path = GoRes.panic ∧
    w.InitComponent i componentID = GoRes.panic ∧
    w.SetComponentData i componentID cdt v pubFails = GoRes.panic ∧
    w.GetComponentData i componentID cdt = GoRes.panic ∧
    w.SetComponentStatus i componentID cst b pubFails = GoRes.panic ∧
    w.GetComponentStatus i componentID cst = GoRes.panic ∧
    w.SetPipelineData i pdt v pubFails = GoRes.panic ∧
    w.GetPipelineData i pdt = GoRes.panic := by
  have hg : getRoot w i = none := listGetI_eq_none w.Data i h
  refine ⟨?_, ?_, ?_, ?_, ?_, ?_, ?_, ?_, ?_⟩
  · unfold WorkflowMemory.Set; rw [hg]
  · unfold WorkflowMemory.Get; rw [hg]
  · unfold WorkflowMemory.InitComponent; rw [hg]
  · unfold WorkflowMemory.SetComponentData; rw [hg]
  · unfold WorkflowMemory.GetComponentData; rw [hg]
  · unfold WorkflowMemory.SetComponentStatus; rw [hg]
  · unfold WorkflowMemory.GetComponentStatus; rw [hg]
  · unfold WorkflowMemory.SetPipelineData; rw [hg]
  · unfold WorkflowMemory.GetPipelineData; rw [hg]

/-- C1 witness: on a one-batch workflow, every indexed operation called
at batch index 1 panics. -/
theorem batchIndex_out_of_range_panics_witness :
    ((1 : Int) < 0 ∨ (((NewWorkflowMemory "w" ⟨⟩ 1).Data.length : Nat) : Int) ≤ 1) ∧
    (NewWorkflowMemory "w" ⟨⟩ 1).Get 1 "variable" = GoRes.panic :=
  ⟨Or.inr (by decide),
   (batchIndex_out_of_range_panics (NewWorkflowMemory "w" ⟨⟩ 1) 1 "k" "variable" "c1"
     (Value.map []) false false ComponentDataType.input ComponentStatusType.started
     PipelineDataType.variable (Or.inr (by decide))).2.1⟩

/-- C1 counterexample: `Set` at batch index 1 on a workflow of batch
size 1 panics — it does not return a `BatchOutOfRange` (or any) error,
refuting the claim that out-of-range indices fail gracefully. -/
theorem set_at_batch_one_of_one_panics :
    WorkflowMemory.Set (NewWorkflowMemory "w" ⟨⟩ 1) 1 "k" (Value.map []) = GoRes.panic :=
  rfl

/-- The spec's S3 scenario root, as a one-batch workflow memory:
`{"a": {"b": [{"c": 10}, {"c": 20}]}}`. -/
def s3Memory : WorkflowMemory :=
  ⟨"w",
   [Value.map [("a", Value.map [("b", Value.array
      [Value.map [("c", Value.number 10)], Value.map [("c", Value.number 20)]])])]],
   ⟨⟩, false⟩

/-- C2 (amended): the resolver walks valid steps correctly
(`Get(0,"a.b[1].c")` returns `20`), but it performs unchecked type
assertions and slice indexing: an out-of-range array index
(`Get(0,"a.b[2].c")`) and a wrong-variant access (`Get(0,"a.b.c")`,
a map key applied to an array) both panic instead of failing with
`NotFound`/`InvalidPath`, and a map key missing at the final step
(`Get(0,"a.x")`) returns a Go `nil` value with a nil error instead of
`NotFound`. -/
theorem get_resolver_behaviour :
    s3Memory.Get 0 "a.b[1].c" = GoRes.ret (some (Value.number 20), none) ∧
    s3Memory.Get 0 "a.b[2].c" = GoRes.panic ∧
    s3Memory.Get 0 "a.b.c" = GoRes.panic ∧
    s3Memory.Get 0 "a.x" = GoRes.ret (none, none) :=
  ⟨rfl, rfl, rfl, rfl⟩

/-- C2 counterexample: on the spec's own S3 scenario, the accesses the
claim says fail with `NotFound` (out-of-range index) and `InvalidPath`
(wrong-variant access) both panic. -/
theorem get_wrong_access_panics :
    s3Memory.Get 0 "a.b[2].c" = GoRes.panic ∧ s3Memory.Get 0 "a.b.c" = GoRes.panic :=
  ⟨rfl, rfl⟩

/-- C3: encoding a `WorkflowMemory` with `WriteWorkflowMemoryToRedis`
and decoding it with `LoadWorkflowMemoryFromRedis` (under the same
workflow ID key) yields a memory whose public reads — `Get`,
`GetPipelineData`, `GetComponentData`, `GetComponentStatus`,
`GetBatchSize` — agree with the original on every batch index, path
and tag. -/
theorem snapshot_roundtrip_preserves_reads (w : WorkflowMemory) (i : Int)
    (path componentID : String) (cdt : ComponentDataType) (cst : ComponentStatusType)
    (pdt : PipelineDataType) :
    (LoadWorkflowMemoryFromRedis w.ID (WriteWorkflowMemoryToRedis w)).Get i path
      = w.Get i path ∧
    (LoadWorkflowMemoryFromRedis w.ID (WriteWorkflowMemoryToRedis w)).GetPipelineData i pdt
      = w.GetPipelineData i pdt ∧
    (LoadWorkflowMemoryFromRedis w.ID (WriteWorkflowMemoryToRedis w)).GetComponentData
        i componentID cdt
      = w.GetComponentData i componentID cdt ∧
    (LoadWorkflowMemoryFromRedis w.ID (WriteWorkflowMemoryToRedis w)).GetComponentStatus
        i componentID cst
      = w.GetComponentStatus i componentID cst ∧
    (LoadWorkflowMemoryFromRedis w.ID (WriteWorkflowMemoryToRedis w)).GetBatchSize
      = w.GetBatchSize :=
  ⟨rfl, rfl, rfl, rfl, rfl⟩

/-- The events a mutating call handed to `redisClient.Publish`
(empty when the call panicked). -/
def publishedOf : GoRes SetResult → List Event
  | GoRes.panic => []
  | GoRes.ret r => r.published

/-- C4 (amended): with streaming enabled, a `SetPipelineData` whose
value survives the JSON projection round-trip always publishes exactly
one event on the bus, for every data type: the event is
`PipelineOutputUpdated` when `T = output`, and the zero `Event{}`
(empty tag, nil payload) when `T` is `variable`, `secret` or
`_output` — the source encodes and publishes the event unconditionally
and only its contents depend on `T`. -/
theorem setPipelineData_publish_policy (w : WorkflowMemory) (i : Int)
    (t : PipelineDataType) (v : Value) (rf : List (String × Value))
    (jm : Option (List (String × StructValue)))
    (hroot : getRoot w i = some (Value.map rf))
    (hstream : w.streaming = true)
    (hjson : structToJSONMap (toStructValue v) = some jm) :
    ∃ w', w.SetPipelineData i t v false =
      GoRes.ret ⟨w',
        [if t = PipelineDataType.output then
           ⟨"pipeline_output_updated", EventData.pipelineOutput 0 jm⟩
         else ⟨"", EventData.empty⟩],
        none⟩ := by
  refine ⟨setRootFields w i (mapInsert rf t.str v), ?_⟩
  simp only [WorkflowMemory.SetPipelineData, hroot, hstream, hjson, if_true]
  simp

/-- C4 witness: on a streaming one-batch workflow,
`SetPipelineData(0, secret, {})` satisfies the hypotheses and publishes
exactly one zero event. -/
theorem setPipelineData_publish_policy_witness :
    getRoot ((NewWorkflowMemory "w" ⟨⟩ 1).EnableStreaming) 0
        = some (Value.map
            [("variable", Value.map []), ("secret", Value.map []), ("output", Value.map [])]) ∧
    ((NewWorkflowMemory "w" ⟨⟩ 1).EnableStreaming).streaming = true ∧
    structToJSONMap (toStructValue (Value.map [])) = some (some []) ∧
    (∃ w', ((NewWorkflowMemory "w" ⟨⟩ 1).EnableStreaming).SetPipelineData 0
        PipelineDataType.secret (Value.map []) false =
      GoRes.ret ⟨w',
        [if PipelineDataType.secret = PipelineDataType.output then
           ⟨"pipeline_output_updated", EventData.pipelineOutput 0 (some [])⟩
         else ⟨"", EventData.empty⟩],
        none⟩) :=
  ⟨rfl, rfl, rfl,
   setPipelineData_publish_policy ((NewWorkflowMemory "w" ⟨⟩ 1).EnableStreaming) 0
     PipelineDataType.secret (Value.map [])
     [("variable", Value.map []), ("secret", Value.map []), ("output", Value.map [])]
     (some []) rfl rfl rfl⟩

/-- C4 counterexample: with streaming enabled,
`SetPipelineData(0, variable, {})` does publish an event on the bus
(the gob-encoded zero `Event{}`), refuting the claim that nothing is
published for `T = variable`. -/
theorem setPipelineData_variable_publishes :
    publishedOf (((NewWorkflowMemory "w" ⟨⟩ 1).EnableStreaming).SetPipelineData 0
        PipelineDataType.variable (Value.map []) false)
      = [⟨"", EventData.empty⟩] :=
  rfl

/-- C5: the `BatchIndex` fields of `ComponentInputEventData`,
`ComponentOutputEventData` and `PipelineCompletedEventData` are never
assigned by `SetComponentData`/`SetPipelineData`, so the published
payloads carry batch index `0` regardless of the mutated batch index —
here mutations at batch index 1 emit events with `batchIndex = 0`,
while the sibling `SetComponentStatus` (which does assign the field)
emits `batchIndex = 1`. -/
theorem componentData_event_batchIndex_is_zero :
    ∃ w', (WorkflowMemory.InitComponent ((NewWorkflowMemory "w" ⟨⟩ 2).EnableStreaming) 1 "c1"
            = GoRes.ret w') ∧
      publishedOf (w'.SetComponentData 1 "c1" ComponentDataType.input (Value.map []) false)
        = [⟨"component_input_updated", EventData.componentInput "c1" 0 (some [])⟩] ∧
      publishedOf (w'.SetComponentData 1 "c1" ComponentDataType.output (Value.map []) false)
        = [⟨"component_output_updated", EventData.componentOutput "c1" 0 (some [])⟩] ∧
      publishedOf (w'.SetPipelineData 1 PipelineDataType.output (Value.map []) false)
        = [⟨"pipeline_output_updated", EventData.pipelineOutput 0 (some [])⟩] ∧
      publishedOf (w'.SetComponentStatus 1 "c1" ComponentStatusType.started true false)
        = [⟨"component_status_updated",
            EventData.componentStatus "c1" 1 ⟨true, false, false⟩⟩] :=
  ⟨_, rfl, rfl, rfl, rfl, rfl⟩

theorem getComponentStatus_after (w : WorkflowMemory) (i : Int) (C : String)
    (rf cf sf' : List (String × Value)) (u : ComponentStatusType) (x : Bool)
    (hroot : getRoot w i = some (Value.map rf))
    (hu : mapLookup sf' u.str = some (Value.boolean x)) :
    (setRootFields w i (mapInsert rf C (Value.map (mapInsert cf "status"
      (Value.map sf'))))).GetComponentStatus i C u = GoRes.ret (x, none) := by
  have hroot' := listGetI_listSetI w.Data i (Value.map rf)
    (Value.map (mapInsert rf C (Value.map (mapInsert cf "status" (Value.map sf'))))) hroot
  simp only [WorkflowMemory.GetComponentStatus, getRoot, setRootFields, hroot',
    mapLookup_mapInsert_self, hu]

theorem getComponentData_after (w : WorkflowMemory) (i : Int) (C : String)
    (rf cf : List (String × Value)) (t : ComponentDataType) (v : Value)
    (hroot : getRoot w i = some (Value.map rf)) :
    (setRootFields w i (mapInsert rf C (Value.map (mapInsert cf t.str
      v)))).GetComponentData i C t = GoRes.ret (some v, none) := by
  have hroot' := listGetI_listSetI w.Data i (Value.map rf)
    (Value.map (mapInsert rf C (Value.map (mapInsert cf t.str v)))) hroot
  simp only [WorkflowMemory.GetComponentData, getRoot, setRootFields, hroot',
    mapLookup_mapInsert_self]

theorem getPipelineData_after (w : WorkflowMemory) (i : Int)
    (rf : List (String × Value)) (t : PipelineDataType) (v : Value)
    (hroot : getRoot w i = some (Value.map rf)) :
    (setRootFields w i (mapInsert rf t.str v)).GetPipelineData i t
      = GoRes.ret (some v, none) := by
  have hroot' := listGetI_listSetI w.Data i (Value.map rf)
    (Value.map (mapInsert rf t.str v)) hroot
  simp only [WorkflowMemory.GetPipelineData, getRoot, setRootFields, hroot',
    mapLookup_mapInsert_self]

theorem flags_after_insert (sf : List (String × Value)) (t u : ComponentStatusType) (b : Bool)
    (hflags : ∀ u' : ComponentStatusType, ∃ x : Bool,
      mapLookup sf u'.str = some (Value.boolean x)) :
    ∃ x : Bool,
      mapLookup (mapInsert sf t.str (Value.boolean b)) u.str = some (Value.boolean x) := by
  by_cases h : u = t
  · subst h
    exact ⟨b, mapLookup_mapInsert_self sf u.str (Value.boolean b)⟩
  · obtain ⟨x, hx⟩ := hflags u
    refine ⟨x, ?_⟩
    rw [mapLookup_mapInsert_ne sf t.str u.str (Value.boolean b) ?_]
    · exact hx
    · cases t <;> cases u <;> first | exact absurd rfl h | decide

/-- C6: with streaming enabled, a successful `SetComponentStatus` on an
initialised component (well-formed `status` map) publishes exactly one
`component_status_updated` event; its payload carries the component ID,
the mutated batch index, and a `{started, skipped, completed}` triple
equal to the flags `GetComponentStatus` reads from the post-mutation
state. -/
theorem setComponentStatus_emits_post_state_triple (w : WorkflowMemory) (i : Int)
    (C : String) (t : ComponentStatusType) (b : Bool)
    (rf cf sf : List (String × Value))
    (hroot : getRoot w i = some (Value.map rf))
    (hcomp : mapLookup rf C = some (Value.map cf))
    (hst : mapLookup cf "status" = some (Value.map sf))
    (hflags : ∀ u : ComponentStatusType, ∃ x : Bool,
      mapLookup sf u.str = some (Value.boolean x))
    (hstream : w.streaming = true) :
    ∃ w' s k c,
      w.SetComponentStatus i C t b false =
        GoRes.ret ⟨w', [⟨"component_status_updated",
          EventData.componentStatus C i ⟨s, k, c⟩⟩], none⟩ ∧
      w'.GetComponentStatus i C ComponentStatusType.started = GoRes.ret (s, none) ∧
      w'.GetComponentStatus i C ComponentStatusType.skipped = GoRes.ret (k, none) ∧
      w'.GetComponentStatus i C ComponentStatusType.completed = GoRes.ret (c, none) := by
  obtain ⟨s, hs'⟩ := flags_after_insert sf t ComponentStatusType.started b hflags
  obtain ⟨k, hk'⟩ := flags_after_insert sf t ComponentStatusType.skipped b hflags
  obtain ⟨c, hc'⟩ := flags_after_insert sf t ComponentStatusType.completed b hflags
  simp only [ComponentStatusType.str] at hs' hk' hc'
  refine ⟨setRootFields w i (mapInsert rf C (Value.map (mapInsert cf "status"
      (Value.map (mapInsert sf t.str (Value.boolean b)))))), s, k, c, ?_, ?_, ?_, ?_⟩
  · simp only [WorkflowMemory.SetComponentStatus, hroot, hcomp, hst, hstream,
      ComponentStatusType.str, hs', hk', hc']
    simp
  · exact getComponentStatus_after w i C rf cf _ ComponentStatusType.started s hroot hs'
  · exact getComponentStatus_after w i C rf cf _ ComponentStatusType.skipped k hroot hk'
  · exact getComponentStatus_after w i C rf cf _ ComponentStatusType.completed c hroot hc'

/-- The component skeleton installed by `InitComponent`. -/
def statusFields : List (String × Value) :=
  [("started", Value.boolean false), ("skipped", Value.boolean false),
   ("completed", Value.boolean false)]

/-- The component skeleton's fields. -/
def skeletonFields : List (String × Value) :=
  [("input", Value.map []), ("output", Value.map []),
   ("status", Value.map statusFields), ("setup", Value.map [])]

/-- A one-batch root after `InitComponent(0, "c1")`. -/
def rootInitFields : List (String × Value) :=
  [("variable", Value.map []), ("secret", Value.map []), ("output", Value.map []),
   ("c1", Value.map skeletonFields)]

/-- A streaming one-batch workflow with component `c1` initialised. -/
def wInit : WorkflowMemory :=
  ⟨"w", [Value.map rootInitFields], ⟨⟩, true⟩

/-- C6 witness: on `wInit`, `SetComponentStatus(0, "c1", started, true)`
publishes one status event whose triple matches the post-state. -/
theorem setComponentStatus_emits_post_state_triple_witness :
    wInit.streaming = true ∧
    (∃ w' s k c,
      wInit.SetComponentStatus 0 "c1" ComponentStatusType.started true false =
        GoRes.ret ⟨w', [⟨"component_status_updated",
          EventData.componentStatus "c1" 0 ⟨s, k, c⟩⟩], none⟩ ∧
      w'.GetComponentStatus 0 "c1" ComponentStatusType.started = GoRes.ret (s, none) ∧
      w'.GetComponentStatus 0 "c1" ComponentStatusType.skipped = GoRes.ret (k, none) ∧
      w'.GetComponentStatus 0 "c1" ComponentStatusType.completed = GoRes.ret (c, none)) :=
  ⟨rfl,
   setComponentStatus_emits_post_state_triple wInit 0 "c1" ComponentStatusType.started true
     rootInitFields skeletonFields statusFields rfl rfl rfl
     (fun u => by cases u <;> exact ⟨false, rfl⟩) rfl⟩

/-- C7: for `SetComponentData`, `SetComponentStatus` and
`SetPipelineData` with streaming enabled, when `redisClient.Publish`
fails the call returns the publish error to the caller, yet the
in-memory mutation is already applied: the post-call state is exactly
the state a successful publish would have produced, and the written
value (or status flag) reads back as if the publish had succeeded. -/
theorem publish_failure_keeps_mutation (w : WorkflowMemory) (i : Int) (C : String)
    (cdt : ComponentDataType) (cst : ComponentStatusType) (pdt : PipelineDataType)
    (v pv : Value) (b : Bool) (rf cf sf : List (String × Value))
    (jm jm' : Option (List (String × StructValue)))
    (hroot : getRoot w i = some (Value.map rf))
    (hcomp : mapLookup rf C = some (Value.map cf))
    (hst : mapLookup cf "status" = some (Value.map sf))
    (hflags : ∀ u : ComponentStatusType, ∃ x : Bool,
      mapLookup sf u.str = some (Value.boolean x))
    (hjson : structToJSONMap (toStructValue v) = some jm)
    (hjson2 : structToJSONMap (toStructValue pv) = some jm')
    (hstream : w.streaming = true) :
    (∃ w1 ev, w.SetComponentData i C cdt v false = GoRes.ret ⟨w1, [ev], none⟩ ∧
       w.SetComponentData i C cdt v true = GoRes.ret ⟨w1, [], some GoError.publishError⟩ ∧
       w1.GetComponentData i C cdt = GoRes.ret (some v, none)) ∧
    (∃ w2 ev, w.SetComponentStatus i C cst b false = GoRes.ret ⟨w2, [ev], none⟩ ∧
       w.SetComponentStatus i C cst b true = GoRes.ret ⟨w2, [], some GoError.publishError⟩ ∧
       w2.GetComponentStatus i C cst = GoRes.ret (b, none)) ∧
    (∃ w3 ev, w.SetPipelineData i pdt pv false = GoRes.ret ⟨w3, [ev], none⟩ ∧
       w.SetPipelineData i pdt pv true = GoRes.ret ⟨w3, [], some GoError.publishError⟩ ∧
       w3.GetPipelineData i pdt = GoRes.ret (some pv, none)) := by
  refine ⟨?_, ?_, ?_⟩
  · refine ⟨setRootFields w i (mapInsert rf C (Value.map (mapInsert cf cdt.str v))),
      if cdt = ComponentDataType.input then
        ⟨"component_input_updated", EventData.componentInput C 0 jm⟩
      else if cdt = ComponentDataType.output then
        ⟨"component_output_updated", EventData.componentOutput C 0 jm⟩
      else ⟨"", EventData.empty⟩, ?_, ?_, ?_⟩
    · simp only [WorkflowMemory.SetComponentData, hroot, hcomp, hstream, hjson]
      simp
    · simp only [WorkflowMemory.SetComponentData, hroot, hcomp, hstream, hjson]
      simp
    · exact getComponentData_after w i C rf cf cdt v hroot
  · obtain ⟨s, hs'⟩ := flags_after_insert sf cst ComponentStatusType.started b hflags
    obtain ⟨k, hk'⟩ := flags_after_insert sf cst ComponentStatusType.skipped b hflags
    obtain ⟨c, hc'⟩ := flags_after_insert sf cst ComponentStatusType.completed b hflags
    have hb : mapLookup (mapInsert sf cst.str (Value.boolean b)) cst.str
        = some (Value.boolean b) := mapLookup_mapInsert_self sf cst.str (Value.boolean b)
    simp only [ComponentStatusType.str] at hs' hk' hc'
    refine ⟨setRootFields w i (mapInsert rf C (Value.map (mapInsert cf "status"
        (Value.map (mapInsert sf cst.str (Value.boolean b)))))),
      ⟨"component_status_updated", EventData.componentStatus C i ⟨s, k, c⟩⟩, ?_, ?_, ?_⟩
    · simp only [WorkflowMemory.SetComponentStatus, hroot, hcomp, hst, hstream,
        ComponentStatusType.str, hs', hk', hc']
      simp
    · simp only [WorkflowMemory.SetComponentStatus, hroot, hcomp, hst, hstream,
        ComponentStatusType.str, hs', hk', hc']
      simp
    · exact getComponentStatus_after w i C rf cf _ cst b hroot hb
  · refine ⟨setRootFields w i (mapInsert rf pdt.str pv),
      if pdt = PipelineDataType.output then
        ⟨"pipeline_output_updated", EventData.pipelineOutput 0 jm'⟩
      else ⟨"", EventData.empty⟩, ?_, ?_, ?_⟩
    · simp only [WorkflowMemory.SetPipelineData, hroot, hstream, hjson2]
      simp
    · simp only [WorkflowMemory.SetPipelineData, hroot, hstream, hjson2]
      simp
    · exact getPipelineData_after w i rf pdt pv hroot

/-- C7 witness: on `wInit`, writing component input, a status flag and
pipeline output with a failing publish returns the publish error while
the written values read back. -/
theorem publish_failure_keeps_mutation_witness :
    wInit.streaming = true ∧
    ((∃ w1 ev, wInit.SetComponentData 0 "c1" ComponentDataType.input (Value.map [])
          false = GoRes.ret ⟨w1, [ev], none⟩ ∧
        wInit.SetComponentData 0 "c1" ComponentDataType.input (Value.map []) true
          = GoRes.ret ⟨w1, [], some GoError.publishError⟩ ∧
        w1.GetComponentData 0 "c1" ComponentDataType.input
          = GoRes.ret (some (Value.map []), none)) ∧
      (∃ w2 ev, wInit.SetComponentStatus 0 "c1" ComponentStatusType.started true false
          = GoRes.ret ⟨w2, [ev], none⟩ ∧
        wInit.SetComponentStatus 0 "c1" ComponentStatusType.started true true
          = GoRes.ret ⟨w2, [], some GoError.publishError⟩ ∧
        w2.GetComponentStatus 0 "c1" ComponentStatusType.started = GoRes.ret (true, none)) ∧
      (∃ w3 ev, wInit.SetPipelineData 0 PipelineDataType.output (Value.map []) false
          = GoRes.ret ⟨w3, [ev], none⟩ ∧
        wInit.SetPipelineData 0 PipelineDataType.output (Value.map []) true
          = GoRes.ret ⟨w3, [], some GoError.publishError⟩ ∧
        w3.GetPipelineData 0 PipelineDataType.output
          = GoRes.ret (some (Value.map []), none))) :=
  ⟨rfl,
   publish_failure_keeps_mutation wInit 0 "c1" ComponentDataType.input
     ComponentStatusType.started PipelineDataType.output (Value.map []) (Value.map [])
     true rootInitFields skeletonFields statusFields (some []) (some [])
     rfl rfl rfl (fun u => by cases u <;> exact ⟨false, rfl⟩) rfl rfl rfl⟩

/-- Lookup in the fields of a projected `structpb.Struct`. -/
def structLookup : List (String × StructValue) → String → Option StructValue
  | [], _ => none
  | (k, v) :: rest, key => if k = key then some v else structLookup rest key

theorem structLookup_mapToStruct_none (fs : List (String × Value)) (k : String)
    (h : ∀ p ∈ fs, p.1 ≠ k) : structLookup (mapToStruct fs) k = none := by
  induction fs with
  | nil => rfl
  | cons p rest ih =>
    have hp : ¬p.1 = k := h p (by simp)
    have hrest : ∀ q ∈ rest, q.1 ≠ k := fun q hq => h q (by simp [hq])
    obtain ⟨k0, v0⟩ := p
    cases v0 <;> simp only [mapToStruct, structLookup] <;>
      first
        | exact ih hrest
        | (rw [if_neg hp]; exact ih hrest)

theorem arrayToStruct_get (vs : List Value) (i : Nat) :
    (arrayToStruct vs).get? i = (vs.get? i).map toStructValue := by
  induction vs generalizing i with
  | nil => simp [arrayToStruct]
  | cons v rest ih =>
    cases i with
    | zero => simp [arrayToStruct]
    | succ j =>
      simp only [arrayToStruct, List.get?]
      exact ih j

/-- C8: the structural projection of a `Map` omits every key whose
value is the `Null` variant (looking the key up in the projected object
finds nothing), while the projection of an `Array` keeps a `Null`
element in place as a null literal at the same index.  The key-set of a
Go map is duplicate-free, hence the `Nodup` hypothesis. -/
theorem toStructValue_null_handling (fs : List (String × Value)) (k : String)
    (vs : List Value) (i : Nat)
    (hnodup : (fs.map Prod.fst).Nodup)
    (hk : mapLookup fs k = some Value.null)
    (hi : vs.get? i = some Value.null) :
    structLookup (mapToStruct fs) k = none ∧
    (arrayToStruct vs).get? i = some StructValue.nullValue := by
  constructor
  · induction fs with
    | nil => simp [mapLookup] at hk
    | cons p rest ih =>
      obtain ⟨k0, v0⟩ := p
      by_cases hk0 : k0 = k
      · subst hk0
        have hv0 : v0 = Value.null := by
          have := hk
          simp only [mapLookup, if_pos rfl] at this
          exact (Option.some.injEq _ _ ▸ this)
        subst hv0
        have hnotin : k0 ∉ rest.map Prod.fst := by
          simp only [List.map] at hnodup
          exact (List.nodup_cons.mp hnodup).1
        have hrest : ∀ q ∈ rest, q.1 ≠ k0 :=
          fun q hq hq1 => hnotin (hq1 ▸ List.mem_map_of_mem Prod.fst hq)
        simp only [mapToStruct]
        exact structLookup_mapToStruct_none rest k0 hrest
      · have hk' : mapLookup rest k = some Value.null := by
          simpa [mapLookup, hk0] using hk
        have hnodup' : (rest.map Prod.fst).Nodup := by
          simp only [List.map] at hnodup
          exact (List.nodup_cons.mp hnodup).2
        cases v0 <;> simp only [mapToStruct, structLookup] <;>
          first
            | exact ih hnodup' hk'
            | (rw [if_neg hk0]; exact ih hnodup' hk')
  · rw [arrayToStruct_get, hi]
    rfl

/-- C8 witness: `{"a": Null, "b": true}` projects to an object without
`"a"`, and `[Null]` projects to a list with a null at index 0. -/
theorem toStructValue_null_handling_witness :
    (([("a", Value.null), ("b", Value.boolean true)].map Prod.fst).Nodup ∧
     mapLookup [("a", Value.null), ("b", Value.boolean true)] "a" = some Value.null ∧
     [Value.null].get? 0 = some Value.null) ∧
    (structLookup (mapToStruct [("a", Value.null), ("b", Value.boolean true)]) "a" = none ∧
     (arrayToStruct [Value.null]).get? 0 = some StructValue.nullValue) :=
  ⟨⟨by simp, rfl, rfl⟩,
   toStructValue_null_handling [("a", Value.null), ("b", Value.boolean true)] "a"
     [Value.null] 0 (by simp) rfl rfl⟩

/-- The root map installed for every batch index by
`NewWorkflowMemory`. -/
def newRootFields : List (String × Value) :=
  [("variable", Value.map []), ("secret", Value.map []), ("output", Value.map [])]

/-- C9: on a freshly created workflow, for every in-range batch index,
`GetPipelineData` succeeds for `variable`, `secret` and `output` and
returns an empty map. -/
theorem new_workflow_pipeline_data_empty (workflowID : String) (r : datamodel.Recipe)
    (batchSize : Nat) (i : Int) (h0 : 0 ≤ i) (hn : i < (batchSize : Int)) :
    (NewWorkflowMemory workflowID r batchSize).GetPipelineData i PipelineDataType.variable
      = GoRes.ret (some (Value.map []), none) ∧
    (NewWorkflowMemory workflowID r batchSize).GetPipelineData i PipelineDataType.secret
      = GoRes.ret (some (Value.map []), none) ∧
    (NewWorkflowMemory workflowID r batchSize).GetPipelineData i PipelineDataType.output
      = GoRes.ret (some (Value.map []), none) := by
  have hroot : getRoot (NewWorkflowMemory workflowID r batchSize) i
      = some (Value.map newRootFields) :=
    listGetI_replicate batchSize (Value.map newRootFields) i h0 hn
  refine ⟨?_, ?_, ?_⟩ <;>
    (simp only [WorkflowMemory.GetPipelineData, hroot]; rfl)

/-- C9 witness: batch size 2, batch index 1. -/
theorem new_workflow_pipeline_data_empty_witness :
    ((0 : Int) ≤ 1 ∧ (1 : Int) < ((2 : Nat) : Int)) ∧
    (NewWorkflowMemory "w" ⟨⟩ 2).GetPipelineData 1 PipelineDataType.variable
      = GoRes.ret (some (Value.map []), none) :=
  ⟨⟨by decide, by decide⟩,
   (new_workflow_pipeline_data_empty "w" ⟨⟩ 2 1 (by decide) (by decide)).1⟩

/-- C10: right after `InitComponent`, reading the never-written
`element` slot with `GetComponentData` returns a Go `nil` value
together with a nil error — not a `NotFound` or component error. -/
theorem getComponentData_unwritten_slot_nil (workflowID : String) (r : datamodel.Recipe)
    (batchSize : Nat) (i : Int) (C : String) (w' : WorkflowMemory)
    (h0 : 0 ≤ i) (hn : i < (batchSize : Int))
    (hinit : (NewWorkflowMemory workflowID r batchSize).InitComponent i C = GoRes.ret w') :
    w'.GetComponentData i C ComponentDataType.element = GoRes.ret (none, none) := by
  have hroot : getRoot (NewWorkflowMemory workflowID r batchSize) i
      = some (Value.map newRootFields) :=
    listGetI_replicate batchSize (Value.map newRootFields) i h0 hn
  unfold WorkflowMemory.InitComponent at hinit
  rw [hroot] at hinit
  have hw : setRootFields (NewWorkflowMemory workflowID r batchSize) i
      (mapInsert newRootFields C (Value.map
        [("input", Value.map []), ("output", Value.map []),
         ("status", Value.map
           [("started", Value.boolean false), ("skipped", Value.boolean false),
            ("completed", Value.boolean false)]),
         ("setup", Value.map [])])) = w' := by
    exact (GoRes.ret.injEq _ _).mp hinit
  subst hw
  have hroot' := listGetI_listSetI (NewWorkflowMemory workflowID r batchSize).Data i
    (Value.map newRootFields) (Value.map (mapInsert newRootFields C (Value.map
      [("input", Value.map []), ("output", Value.map []),
       ("status", Value.map
         [("started", Value.boolean false), ("skipped", Value.boolean false),
          ("completed", Value.boolean false)]),
       ("setup", Value.map [])]))) hroot
  simp only [WorkflowMemory.GetComponentData, getRoot, setRootFields, hroot',
    mapLookup_mapInsert_self]
  rfl

/-- C10 witness: batch size 1, batch index 0, component `c1`. -/
theorem getComponentData_unwritten_slot_nil_witness :
    ((0 : Int) ≤ 0 ∧ (0 : Int) < ((1 : Nat) : Int)) ∧
    (∃ w', (NewWorkflowMemory "w" ⟨⟩ 1).InitComponent 0 "c1" = GoRes.ret w' ∧
      w'.GetComponentData 0 "c1" ComponentDataType.element = GoRes.ret (none, none)) :=
  ⟨⟨by decide, by decide⟩,
   ⟨_, rfl, getComponentData_unwritten_slot_nil "w" ⟨⟩ 1 0 "c1" _
     (by decide) (by decide) rfl⟩⟩

end PipelineMemory
